import Mathlib

/-!
Shallow embedding of the camera session/streaming engine of
`src/camera_project/src/camera/camera_controller.py` (class `CameraController`),
together with proofs of the behavioural properties stated in the
specification.  Network effects (Telnet reads/writes, FTP transfers, sleeps,
reconnects) are modelled by explicit environments supplying the outcome of
each external interaction, and by event traces recording what the code did on
the wire and when it slept.
-/

namespace CameraSpec

/-! ### Python string primitives (on `List Char`)

`CameraController.send_native_command` normalises its argument with
`command.strip().upper()` and takes the leading token with
`command.split()[0] if " " in command else command`.  We model Python's
`str.strip` / `str.split` whitespace behaviour directly on character lists.
The case-mapping is applied before stripping; the two operations commute
because upper-casing never creates or destroys a whitespace character. -/

/-- Python whitespace for `str.strip()` / `str.split()`:
space, `\t`, `\n`, `\r`, `\v` (11), `\f` (12). -/
def isWs (c : Char) : Bool :=
  c = ' ' || c = Char.ofNat 9 || c = Char.ofNat 10 || c = Char.ofNat 13 ||
    c = Char.ofNat 11 || c = Char.ofNat 12

/-- Python `str.strip()`: drop whitespace from both ends. -/
def pyStrip (cs : List Char) : List Char :=
  (cs.dropWhile isWs).rdropWhile isWs

/-- First token of Python `str.split()` (split on whitespace runs,
empty pieces dropped): the first maximal non-whitespace run. -/
def pySplitHead (cs : List Char) : List Char :=
  (cs.dropWhile isWs).takeWhile fun c => !isWs c

/-- `cmd_base = command.split()[0] if " " in command else command`
(camera_controller.py line 226). -/
def cmdBase (cs : List Char) : List Char :=
  if cs.contains ' ' then pySplitHead cs else cs

/-- Python `str.isalpha()` of a string slice: nonempty and all alphabetic. -/
def pyIsAlpha (l : List Char) : Bool :=
  !l.isEmpty && l.all Char.isAlpha

/-- Python `str.isdigit()` of a string slice: nonempty and all digits. -/
def pyIsDigit (l : List Char) : Bool :=
  !l.isEmpty && l.all Char.isDigit

/-- The `GV` shape test of camera_controller.py lines 230-231:
`len(command) < 5 or not command[2:3].isalpha() or not command[3:].isdigit()
or len(command[3:]) != 3`. -/
def gvMalformed (cs : List Char) : Bool :=
  decide (cs.length < 5) || !pyIsAlpha ((cs.drop 2).take 1) ||
    !pyIsDigit (cs.drop 3) || decide ((cs.drop 3).length ≠ 3)

/-- Spec-side well-formedness: the command matches the shape
`GV<single-letter-column><3-digit-row>`, e.g. `GVA005`. -/
def gvShape (cs : List Char) : Bool :=
  match cs with
  | ['G', 'V', a, d1, d2, d3] => a.isAlpha && d1.isDigit && d2.isDigit && d3.isDigit
  | _ => false

/-- Surround a string with single-quote characters (codepoint 39), as the
error messages of `send_native_command` do. -/
def squote (s : String) : String :=
  String.mk [Char.ofNat 39] ++ s ++ String.mk [Char.ofNat 39]

/-! ### `send_native_command` (camera_controller.py lines 220-258)

The Telnet transport is modelled by the list of stripped lines that the
successive `read_until` calls after the command write would yield (`""`
standing for a timed-out/empty read); `none` for the whole transport models
`self.tn is None`.  The returned trace is the list of strings written on the
transport. -/

/-- Split a character list at newline characters (Python `str.split("\n")`),
used to speak about "line 2" of a returned response text. -/
def splitOnNl : List Char → List (List Char)
  | [] => [[]]
  | c :: rest =>
    if c = '\n' then [] :: splitOnNl rest
    else
      match splitOnNl rest with
      | [] => [[c]]
      | l :: ls => (c :: l) :: ls

/-- The response-reading procedure of `send_native_command`: one status line,
then at most 5 further lines with a short per-line timeout, stopping at the
first empty/timed-out read, joined with newlines. -/
def respText (lines : List String) : String :=
  "\n".intercalate
    (lines.headD "" :: ((lines.drop 1).take 5).takeWhile fun l => l ≠ "")

def send_native_command (tn : Option (List String)) (rawCmd : String) :
    (Bool × String) × List String :=
  match tn with
  | none => ((false, "Error: Not connected to camera"), [])
  | some lines =>
    let cmd : List Char := pyStrip (rawCmd.data.map Char.toUpper)
    let command : String := String.mk cmd
    if cmd.isEmpty = true ∨ (cmdBase cmd).length < 2 then
      ((false, "Error: Invalid command " ++ squote command ++
        " (minimum 2 characters)"), [])
    else if cmdBase cmd = ['G', 'V'] ∧ gvMalformed cmd = true then
      ((false, "Error: Invalid GV command " ++ squote command ++
        " (expected GV[Column][Row], e.g., GVA005)"), [])
    else
      let status := lines.headD ""
      let wire := [command ++ "\r\n"]
      if status = "1" then
        ((true, "Command " ++ command ++ ": " ++ respText lines), wire)
      else if status = "0" then
        ((false, "Error: Unrecognized command " ++ squote command), wire)
      else if status = "-1" ∨ status = "-2" then
        ((false, "Error: Command " ++ squote command ++ " failed (Status " ++
          status ++ ")"), wire)
      else
        ((false, "Error: Command " ++ squote command ++
          " returned unknown status " ++ squote status), wire)

/-! ### `get_image` (camera_controller.py lines 282-325)

Each iteration of the `for attempt in range(retries + 1)` loop performs one
FTP fetch whose outcome is supplied by the environment: a decoded image
(`ok`, with width and height; this also covers the post-transfer `NOOP`),
a decode failure (`cv2.imdecode` returned `None`), a `socket.timeout`/
`EOFError`, or any other exception.  `reconnect n` is the outcome of the
`n`-th `connect_ftp()` call made inside `get_image`.  The trace records
fetch attempts, reconnect attempts and the backoff sleeps in order. -/

inductive FetchOutcome where
  | ok (w h : Nat)
  | decodeFail
  | timeout (e : String)
  | err (e : String)
deriving DecidableEq, Repr

structure FtpEnv where
  outcome : Nat → FetchOutcome
  reconnect : Nat → Bool × String

inductive FtpEv where
  | fetch
  | reconnect
  | sleep (ms : Nat)
deriving DecidableEq, Repr

/-- Result triple of `get_image`: success flag, optional decoded image
(abstracted to its width × height), message. -/
abbrev ImRes := Bool × Option (Nat × Nat) × String

/-- The backoff before retry `attempt + 1`: `0.5 * (2 ** attempt)` seconds,
expressed in milliseconds so that durations stay in `Nat`. -/
def backoff (attempt : Nat) : Nat := 500 * 2 ^ attempt

/-- The retry loop of `get_image`, with `fuel = retries + 1 - attempt`
remaining iterations, `attempt` the current 0-based attempt index and `rc`
the number of `connect_ftp` calls made so far inside this `get_image`. -/
def get_image_go (env : FtpEnv) (retries : Nat) :
    Nat → Nat → Nat → ImRes × List FtpEv
  | _, _, 0 =>
    -- line 325, reachable only if every iteration continued
    ((false, none, "FTP retrieval failed after " ++ toString (retries + 1) ++
      " attempts"), [])
  | attempt, rc, fuel + 1 =>
    match env.outcome attempt with
    | .ok w h =>
      ((true, some (w, h), "Image retrieved (" ++ toString w ++ "x" ++
        toString h ++ ")"), [.fetch])
    | .decodeFail =>
      if attempt < retries then
        let r := get_image_go env retries (attempt + 1) rc fuel
        (r.1, .fetch :: .sleep (backoff attempt) :: r.2)
      else
        ((false, none, "FTP attempt " ++ toString (attempt + 1) ++
          ": Failed to decode image"), [.fetch])
    | .timeout e =>
      if attempt < retries then
        if (env.reconnect rc).1 = false then
          ((false, none, (env.reconnect rc).2), [.fetch, .reconnect])
        else
          let r := get_image_go env retries (attempt + 1) (rc + 1) fuel
          (r.1, .fetch :: .reconnect :: .sleep (backoff attempt) :: r.2)
      else
        ((false, none, "FTP timeout after " ++ toString (retries + 1) ++
          " attempts: " ++ e), [.fetch])
    | .err e =>
      if attempt < retries then
        if (env.reconnect rc).1 = false then
          ((false, none, (env.reconnect rc).2), [.fetch, .reconnect])
        else
          let r := get_image_go env retries (attempt + 1) (rc + 1) fuel
          (r.1, .fetch :: .reconnect :: .sleep (backoff attempt) :: r.2)
      else
        ((false, none, "FTP attempt " ++ toString (attempt + 1) ++
          ": Error: " ++ e), [.fetch])

/-- `get_image(retries)` (camera_controller.py line 282): if no FTP session
exists, `connect_ftp` first (returning its failure message on failure),
then run the retry loop. -/
def get_image (ftpConnected : Bool) (env : FtpEnv) (retries : Nat) :
    ImRes × List FtpEv :=
  if ftpConnected then get_image_go env retries 0 0 (retries + 1)
  else if (env.reconnect 0).1 = false then
    ((false, none, (env.reconnect 0).2), [.reconnect])
  else
    let r := get_image_go env retries 0 1 (retries + 1)
    (r.1, .reconnect :: r.2)

def fetchCount (tr : List FtpEv) : Nat :=
  (tr.filter fun e => e = FtpEv.fetch).length

def reconnectCount (tr : List FtpEv) : Nat :=
  (tr.filter fun e => e = FtpEv.reconnect).length

def hasSleep (tr : List FtpEv) : Bool :=
  tr.any fun e => match e with | .sleep _ => true | _ => false

/-- The backoff discipline of a `get_image` trace starting at attempt index
`k`: fetch attempts are separated by exactly one sleep of `0.5 * 2 ^ index`
seconds (preceded by a reconnect for transport-class failures), every sleep
is followed by a further fetch attempt, and nothing follows the final
attempt except possibly a failed reconnect. -/
def backoffShape : Nat → List FtpEv → Bool
  | _, [FtpEv.fetch] => true
  | _, [FtpEv.fetch, FtpEv.reconnect] => true
  | k, FtpEv.fetch :: FtpEv.sleep q :: rest =>
    decide (q = backoff k) && backoffShape (k + 1) rest
  | k, FtpEv.fetch :: FtpEv.reconnect :: FtpEv.sleep q :: rest =>
    decide (q = backoff k) && backoffShape (k + 1) rest
  | _, _ => false

/-- Environment for the C1 scenario: every fetch attempt times out and every
reconnect succeeds. -/
def timeoutEnv : FtpEnv :=
  ⟨fun _ => .timeout "timed out", fun _ => (true, "FTP connection established")⟩

/-- Environment for the C10 witness: the first attempt times out and the
reconnection attempt fails. -/
def deadLinkEnv : FtpEnv :=
  ⟨fun _ => .timeout "timed out", fun _ => (false, "FTP connection error: refused")⟩

/-! ### `trigger_image` (camera_controller.py lines 260-280)

`trigger_image` first health-checks the FTP session with a `NOOP`
(`check_ftp_health`, lines 209-218: false when no session exists or the
`NOOP` raises), reconnects on a failed health check, and only then writes
the `SE8` trigger on the Telnet command channel.  The trace records the
FTP reconnect attempt and the command-channel write. -/

inductive TrigOutcome where
  | resp (s : String)
  | exc (e : String)
deriving DecidableEq, Repr

structure TrigEnv where
  tn : Bool
  ftpHealthy : Bool
  reconnectOk : Bool
  reconnectMsg : String
  se8 : TrigOutcome
  elapsedMs : Nat

inductive TrigEv where
  | ftpReconnect
  | se8Write
deriving DecidableEq, Repr

def trigger_image (env : TrigEnv) : (Bool × Option Nat × String) × List TrigEv :=
  if env.tn = false then ((false, none, "Not connected to camera"), [])
  else if env.ftpHealthy = false ∧ env.reconnectOk = false then
    ((false, none, "FTP reconnect failed: " ++ env.reconnectMsg), [.ftpReconnect])
  else
    let pre : List TrigEv := if env.ftpHealthy then [] else [.ftpReconnect]
    match env.se8 with
    | .resp s =>
      -- Python `"1" in response` for the single-character needle `"1"`
      if s.data.contains '1' then
        ((true, some env.elapsedMs, "Trigger successful"), pre ++ [.se8Write])
      else
        ((false, some env.elapsedMs, "Trigger failed"), pre ++ [.se8Write])
    | .exc e => ((false, some 0, "Trigger error: " ++ e), pre ++ [.se8Write])

/-! ### One iteration of `_stream_loop` (camera_controller.py lines 335-354)

The body of the `while self.streaming` loop, past the stop-deadline check:
when paused, sleep 0.1 s and re-check; otherwise trigger, and only on
trigger success retrieve via `get_image()` (default `retries=2`), publishing
the outcome to the hand-off queue either way.  `paceMs` abstracts the
pacing sleep `max(stream_interval - elapsed, 0.002)`. -/

structure IterEnv where
  trig : TrigEnv
  fetch : FtpEnv
  ftpConnected : Bool
  paceMs : Nat

inductive StreamEv where
  | trigEv (e : TrigEv)
  | fetchEv (e : FtpEv)
  | publish (r : ImRes)
  | sleepEv (ms : Nat)
deriving DecidableEq, Repr

def stream_iteration (paused : Bool) (env : IterEnv) : List StreamEv :=
  if paused then [.sleepEv 100]
  else
    let t := trigger_image env.trig
    let base := t.2.map StreamEv.trigEv
    if t.1.1 = false then
      base ++ [.publish (false, none, t.1.2.2), .sleepEv 100]
    else
      let g := get_image env.ftpConnected env.fetch 2
      base ++ g.2.map StreamEv.fetchEv ++ [.publish g.1, .sleepEv env.paceMs]

def containsFetch (tr : List StreamEv) : Bool :=
  tr.any fun e => match e with | .fetchEv _ => true | _ => false

def publishedOf (tr : List StreamEv) : List ImRes :=
  tr.filterMap fun e => match e with | .publish r => some r | _ => none

/-- A fetch environment where the first attempt decodes successfully. -/
def okFetchEnv : FtpEnv :=
  ⟨fun _ => .ok 640 480, fun _ => (true, "FTP connection established")⟩

/-- Trigger environment for the C4 scenario: healthy channels, device
answers the SE8 trigger with `"0"`. -/
def trigZeroEnv : TrigEnv :=
  { tn := true, ftpHealthy := true, reconnectOk := true, reconnectMsg := "",
    se8 := .resp "0", elapsedMs := 5 }

def iterZeroEnv : IterEnv :=
  { trig := trigZeroEnv, fetch := okFetchEnv, ftpConnected := true, paceMs := 300 }

/-- Trigger environment whose SE8 response is `"1"` (trigger succeeds). -/
def trigOneEnv : TrigEnv :=
  { trigZeroEnv with se8 := .resp "1" }

def iterOneEnv : IterEnv :=
  { iterZeroEnv with trig := trigOneEnv }

/-- Trigger environment for the C9 witness: dead transfer channel and a
failing reconnect. -/
def deadTrigEnv : TrigEnv :=
  { tn := true, ftpHealthy := false, reconnectOk := false,
    reconnectMsg := "FTP connection error: refused",
    se8 := TrigOutcome.resp "1", elapsedMs := 5 }

/-! ### Streaming state machine (the shared flags of `CameraController`)

`streaming`, `paused`, `ftp_keep_alive_running` (here `keepAlive`), the
session handles `tn` / `ftp` (present or absent), the background thread
handle, and `ftp_session_start_time`.  `start_live_stream` (lines 366-379),
`pause_streaming` (381-387), `resume_streaming` (389-396) and `stop`
(398-425) are modelled as pure transitions on this record; teardown of the
session handles in `stop` swallows errors by construction. -/

structure CamState where
  streaming : Bool
  paused : Bool
  keepAlive : Bool
  tn : Bool
  ftp : Bool
  streamThread : Bool
  sessionStart : Nat
  stopTime : String
deriving DecidableEq, Repr

def start_live_stream (s : CamState) : (Bool × String) × CamState :=
  if s.streaming then ((false, "Streaming already active"), s)
  else if s.tn = false ∨ s.ftp = false then ((false, "Not connected to camera"), s)
  else
    ((true, "Streaming started, will stop at time " ++ s.stopTime),
     { s with streaming := true, paused := false, keepAlive := true,
              streamThread := true })

def pause_streaming (s : CamState) : (Bool × String) × CamState :=
  if s.streaming = false then ((false, "Streaming not active"), s)
  else ((true, "Streaming paused"), { s with paused := true, keepAlive := false })

def resume_streaming (s : CamState) : (Bool × String) × CamState :=
  if s.streaming = false then start_live_stream s
  else ((true, "Streaming resumed"), { s with paused := false })

def stop (s : CamState) : (Bool × String) × CamState :=
  let s1 := { s with streaming := false, paused := false, keepAlive := false,
                     streamThread := false, tn := false }
  let s2 := if s1.ftp then { s1 with ftp := false, sessionStart := 0 } else s1
  ((true, "Camera stopped and disconnected"), s2)

inductive CamOp where
  | start
  | pause
  | resume
  | halt
deriving DecidableEq, Repr

def applyOp (s : CamState) : CamOp → CamState
  | .start => (start_live_stream s).2
  | .pause => (pause_streaming s).2
  | .resume => (resume_streaming s).2
  | .halt => (stop s).2

def runOps (s : CamState) (ops : List CamOp) : CamState :=
  ops.foldl applyOp s

/-- A connected, idle controller (after `connect`, before streaming). -/
def connectedIdle : CamState :=
  { streaming := false, paused := false, keepAlive := false, tn := true,
    ftp := true, streamThread := false, sessionStart := 0, stopTime := "23:00" }

/-- The state after `start`, `pause` on a connected controller: a paused,
still-running stream. -/
def pausedState : CamState :=
  (pause_streaming (start_live_stream connectedIdle).2).2

/-! ### `_get_next_stop_datetime` (camera_controller.py lines 57-63)

Datetimes are modelled as absolute seconds `day * 86400 + secondOfDay`;
the configured `HH:MM` stop time contributes `stopSecOfHM`. -/

def stopSecOfHM (h m : Nat) : Nat := h * 3600 + m * 60

def get_next_stop_datetime (nowDay nowSec stopSec : Nat) : Nat :=
  let nowAbs := nowDay * 86400 + nowSec
  let stopDt := nowDay * 86400 + stopSec
  if stopDt ≤ nowAbs then stopDt + 86400 else stopDt

/-! ### Validation lemmas -/

/-- A stripped string has no leading whitespace. -/
theorem pyStrip_noLead (cs : List Char) :
    (pyStrip cs).dropWhile isWs = pyStrip cs := by
  have hpre : pyStrip cs <+: cs.dropWhile isWs := List.rdropWhile_prefix _ _
  rw [List.dropWhile_eq_self_iff]
  intro hl hc
  have h0 := hpre.getElem hl
  have hnot := List.dropWhile_get_zero_not isWs cs (hl.trans_le hpre.length_le)
  rw [List.get_eq_getElem] at hc hnot
  rw [h0] at hc
  exact hnot hc

/-- Decomposition of `takeWhile q cs = [a, b]`: the list starts with `a, b`
and is either exactly that or continues with an element refuted by `q`. -/
theorem takeWhile_eq_pair {α : Type} {q : α → Bool} {cs : List α} {a b : α}
    (h : cs.takeWhile q = [a, b]) :
    cs = [a, b] ∨ ∃ w rest, cs = a :: b :: w :: rest ∧ q w = false := by
  match cs with
  | [] => simp [List.takeWhile] at h
  | c :: cs' =>
    rw [List.takeWhile_cons] at h
    by_cases hc : q c
    · rw [if_pos hc] at h
      obtain ⟨rfl, h'⟩ := List.cons.inj h
      match cs' with
      | [] => simp [List.takeWhile] at h'
      | d :: cs'' =>
        rw [List.takeWhile_cons] at h'
        by_cases hd : q d
        · rw [if_pos hd] at h'
          obtain ⟨rfl, h''⟩ := List.cons.inj h'
          match cs'' with
          | [] => exact Or.inl rfl
          | w :: rest =>
            rw [List.takeWhile_cons] at h''
            by_cases hw : q w
            · rw [if_pos hw] at h''
              simp at h''
            · exact Or.inr ⟨w, rest, rfl, by simpa using hw⟩
        · rw [if_neg hd] at h'
          simp at h'
    · rw [if_neg hc] at h
      simp at h

/-- A whitespace character is not alphabetic. -/
theorem isWs_not_alpha {w : Char} (hw : isWs w = true) : w.isAlpha = false := by
  simp only [isWs, Bool.or_eq_true, decide_eq_true_eq] at hw
  rcases hw with ((((h | h) | h) | h) | h) | h <;> subst h <;> decide

/-- If the leading token of a (stripped) command is exactly `GV`, the `GV`
shape test of the source rejects it: either the command is just `GV`
(too short) or its third character is whitespace (not alphabetic). -/
theorem cmdBase_GV_malformed (cs : List Char)
    (hnl : cs.dropWhile isWs = cs) (hb : cmdBase cs = ['G', 'V']) :
    gvMalformed cs = true := by
  unfold cmdBase at hb
  split at hb
  · -- space present: the first whitespace-split token is `GV`
    unfold pySplitHead at hb
    rw [hnl] at hb
    rcases takeWhile_eq_pair hb with h | ⟨w, rest, rfl, hw⟩
    · subst h; decide
    · have hwa : w.isAlpha = false := by
        apply isWs_not_alpha
        simpa using hw
      simp [gvMalformed, pyIsAlpha, hwa]
  · -- no space: the whole command is `GV`, length 2 < 5
    subst hb
    decide

/-- C2: every malformed command — empty, leading token shorter than 2
characters, or leading token `GV` whose full command does not match the
shape `GV<letter><3 digits>` — makes `send_command` fail with the
validation error, and no bytes are sent on the transport. -/
theorem c2_validation_rejects (lines : List String) (rawCmd : String)
    (h : pyStrip (rawCmd.data.map Char.toUpper) = [] ∨
         (cmdBase (pyStrip (rawCmd.data.map Char.toUpper))).length < 2 ∨
         (cmdBase (pyStrip (rawCmd.data.map Char.toUpper)) = ['G', 'V'] ∧
          gvShape (pyStrip (rawCmd.data.map Char.toUpper)) = false)) :
    (send_native_command (some lines) rawCmd).1.1 = false ∧
    ((send_native_command (some lines) rawCmd).1.2 =
        "Error: Invalid command " ++
          squote (String.mk (pyStrip (rawCmd.data.map Char.toUpper))) ++
          " (minimum 2 characters)" ∨
     (send_native_command (some lines) rawCmd).1.2 =
        "Error: Invalid GV command " ++
          squote (String.mk (pyStrip (rawCmd.data.map Char.toUpper))) ++
          " (expected GV[Column][Row], e.g., GVA005)") ∧
    (send_native_command (some lines) rawCmd).2 = [] := by
  simp only [send_native_command]
  by_cases h1 : (pyStrip (rawCmd.data.map Char.toUpper)).isEmpty = true ∨
      (cmdBase (pyStrip (rawCmd.data.map Char.toUpper))).length < 2
  · rw [if_pos h1]
    exact ⟨rfl, Or.inl rfl, rfl⟩
  · have hb : cmdBase (pyStrip (rawCmd.data.map Char.toUpper)) = ['G', 'V'] := by
      rcases h with he | hlen | ⟨hb, _⟩
      · exact absurd (Or.inl (by simp [he])) h1
      · exact absurd (Or.inr hlen) h1
      · exact hb
    have hmal := cmdBase_GV_malformed _ (pyStrip_noLead _) hb
    rw [if_neg h1, if_pos ⟨hb, hmal⟩]
    exact ⟨rfl, Or.inr rfl, rfl⟩

/-- Witness for C2: `send_command("gv")` is rejected by validation and never
reaches the transport. -/
theorem c2_validation_rejects_witness :
    (send_native_command (some ["1"]) "gv").1.1 = false ∧
    ((send_native_command (some ["1"]) "gv").1.2 =
        "Error: Invalid command " ++
          squote (String.mk (pyStrip ("gv".data.map Char.toUpper))) ++
          " (minimum 2 characters)" ∨
     (send_native_command (some ["1"]) "gv").1.2 =
        "Error: Invalid GV command " ++
          squote (String.mk (pyStrip ("gv".data.map Char.toUpper))) ++
          " (expected GV[Column][Row], e.g., GVA005)") ∧
    (send_native_command (some ["1"]) "gv").2 = [] :=
  c2_validation_rejects ["1"] "gv" (by decide)

/-- C3: the status line returned by the device determines the outcome of a
command exchange: `"1"` is a success carrying the full response text, `"0"`
is the unrecognized-command error, `"-1"`/`"-2"` the command-failed error,
and any other status the unknown-status error; in particular `GVA005` with
device response `1\n45.2` succeeds with `45.2` on line 2 of the returned
text. -/
theorem c3_status_dispatch (lines : List String) (rawCmd : String)
    (hv1 : ¬((pyStrip (rawCmd.data.map Char.toUpper)).isEmpty = true ∨
        (cmdBase (pyStrip (rawCmd.data.map Char.toUpper))).length < 2))
    (hv2 : ¬(cmdBase (pyStrip (rawCmd.data.map Char.toUpper)) = ['G', 'V'] ∧
        gvMalformed (pyStrip (rawCmd.data.map Char.toUpper)) = true)) :
    (lines.headD "" = "1" →
      (send_native_command (some lines) rawCmd).1 =
        (true, "Command " ++ String.mk (pyStrip (rawCmd.data.map Char.toUpper)) ++
          ": " ++ respText lines)) ∧
    (lines.headD "" = "0" →
      (send_native_command (some lines) rawCmd).1 =
        (false, "Error: Unrecognized command " ++
          squote (String.mk (pyStrip (rawCmd.data.map Char.toUpper))))) ∧
    (lines.headD "" = "-1" ∨ lines.headD "" = "-2" →
      (send_native_command (some lines) rawCmd).1 =
        (false, "Error: Command " ++
          squote (String.mk (pyStrip (rawCmd.data.map Char.toUpper))) ++
          " failed (Status " ++ lines.headD "" ++ ")")) ∧
    (lines.headD "" ≠ "1" ∧ lines.headD "" ≠ "0" ∧ lines.headD "" ≠ "-1" ∧
        lines.headD "" ≠ "-2" →
      (send_native_command (some lines) rawCmd).1 =
        (false, "Error: Command " ++
          squote (String.mk (pyStrip (rawCmd.data.map Char.toUpper))) ++
          " returned unknown status " ++ squote (lines.headD ""))) ∧
    (send_native_command (some ["1", "45.2"]) "GVA005").1 =
      (true, "Command GVA005: 1\n45.2") ∧
    ((splitOnNl (send_native_command (some ["1", "45.2"]) "GVA005").1.2.data)[1]? =
      some "45.2".data) := by
  simp only [send_native_command]
  rw [if_neg hv1, if_neg hv2]
  refine ⟨?_, ?_, ?_, ?_, by decide, by decide⟩
  · intro hs
    rw [if_pos hs]
  · intro hs
    have hs1 : lines.headD "" ≠ "1" := by rw [hs]; decide
    rw [if_neg hs1, if_pos hs]
  · intro hs
    have hs1 : lines.headD "" ≠ "1" := by
      rcases hs with h | h <;> rw [h] <;> decide
    have hs0 : lines.headD "" ≠ "0" := by
      rcases hs with h | h <;> rw [h] <;> decide
    rw [if_neg hs1, if_neg hs0, if_pos hs]
  · rintro ⟨h1, h0, hm1, hm2⟩
    rw [if_neg h1, if_neg h0, if_neg (by tauto)]

theorem fetchCount_cons_fetch (l : List FtpEv) :
    fetchCount (FtpEv.fetch :: l) = fetchCount l + 1 := by
  simp [fetchCount, List.filter_cons]

theorem fetchCount_cons_sleep (q : Nat) (l : List FtpEv) :
    fetchCount (FtpEv.sleep q :: l) = fetchCount l := by
  simp [fetchCount, List.filter_cons]

theorem fetchCount_cons_reconnect (l : List FtpEv) :
    fetchCount (FtpEv.reconnect :: l) = fetchCount l := by
  simp [fetchCount, List.filter_cons]

/-- Each entry of the retry loop performs at most `fuel` fetch attempts. -/
theorem fetchCount_go_le (env : FtpEnv) (retries : Nat) :
    ∀ fuel attempt rc,
      fetchCount (get_image_go env retries attempt rc fuel).2 ≤ fuel := by
  intro fuel
  induction fuel with
  | zero => intro a rc; simp [get_image_go, fetchCount]
  | succ f ih =>
    intro a rc
    simp only [get_image_go]
    cases h : env.outcome a with
    | ok w hh => simp [fetchCount, List.filter_cons]
    | decodeFail =>
      by_cases hlt : a < retries
      · simp only [if_pos hlt, fetchCount_cons_fetch, fetchCount_cons_sleep]
        have := ih (a + 1) rc
        omega
      · simp [if_neg hlt, fetchCount, List.filter_cons]
    | timeout e =>
      by_cases hlt : a < retries
      · by_cases hrc : (env.reconnect rc).1 = false
        · simp [if_pos hlt, if_pos hrc, fetchCount, List.filter_cons]
        · simp only [if_pos hlt, if_neg hrc, fetchCount_cons_fetch,
            fetchCount_cons_sleep, fetchCount_cons_reconnect]
          have := ih (a + 1) (rc + 1)
          omega
      · simp [if_neg hlt, fetchCount, List.filter_cons]
    | err e =>
      by_cases hlt : a < retries
      · by_cases hrc : (env.reconnect rc).1 = false
        · simp [if_pos hlt, if_pos hrc, fetchCount, List.filter_cons]
        · simp only [if_pos hlt, if_neg hrc, fetchCount_cons_fetch,
            fetchCount_cons_sleep, fetchCount_cons_reconnect]
          have := ih (a + 1) (rc + 1)
          omega
      · simp [if_neg hlt, fetchCount, List.filter_cons]

/-- Every trace of the retry loop obeys the backoff discipline: a sleep of
`0.5 * 2 ^ k` between attempt `k` and attempt `k + 1`, and no sleep after
the final attempt. -/
theorem backoffShape_go (env : FtpEnv) (retries : Nat) :
    ∀ fuel attempt rc, (fuel + 1) + attempt = retries + 1 →
      backoffShape attempt (get_image_go env retries attempt rc (fuel + 1)).2 = true := by
  intro fuel
  induction fuel with
  | zero =>
    intro a rc hsum
    have ha : ¬a < retries := by omega
    simp only [get_image_go]
    cases h : env.outcome a with
    | ok w hh => simp [backoffShape]
    | decodeFail => simp [if_neg ha, backoffShape]
    | timeout e => simp [if_neg ha, backoffShape]
    | err e => simp [if_neg ha, backoffShape]
  | succ f ih =>
    intro a rc hsum
    have ha : a < retries := by omega
    simp only [get_image_go]
    cases h : env.outcome a with
    | ok w hh => simp [backoffShape]
    | decodeFail =>
      simp only [if_pos ha]
      simp only [backoffShape, Bool.and_eq_true, decide_eq_true_eq]
      exact ⟨by trivial, ih (a + 1) rc (by omega)⟩
    | timeout e =>
      by_cases hrc : (env.reconnect rc).1 = false
      · simp [if_pos ha, if_pos hrc, backoffShape]
      · simp only [if_pos ha, if_neg hrc]
        simp only [backoffShape, Bool.and_eq_true, decide_eq_true_eq]
        exact ⟨by trivial, ih (a + 1) (rc + 1) (by omega)⟩
    | err e =>
      by_cases hrc : (env.reconnect rc).1 = false
      · simp [if_pos ha, if_pos hrc, backoffShape]
      · simp only [if_pos ha, if_neg hrc]
        simp only [backoffShape, Bool.and_eq_true, decide_eq_true_eq]
        exact ⟨by trivial, ih (a + 1) (rc + 1) (by omega)⟩

/-- C1: `get_image` with budget `retries = r` performs at most `r + 1` fetch
attempts; after a failed attempt `k` that is followed by another attempt it
sleeps `0.5 * 2 ^ k` seconds first; and with `retries = 2` and three
consecutive timeouts the final result is a failure stating the attempts
were exhausted, with exactly 2 reconnect attempts, one before each retry
and none after the final attempt. -/
theorem c1_retry_budget_and_backoff (env : FtpEnv) (r : Nat) :
    fetchCount (get_image true env r).2 ≤ r + 1 ∧
    backoffShape 0 (get_image true env r).2 = true ∧
    (get_image true timeoutEnv 2).1 =
      (false, none, "FTP timeout after 3 attempts: timed out") ∧
    (get_image true timeoutEnv 2).2 =
      [FtpEv.fetch, FtpEv.reconnect, FtpEv.sleep (backoff 0),
       FtpEv.fetch, FtpEv.reconnect, FtpEv.sleep (backoff 1), FtpEv.fetch] ∧
    reconnectCount (get_image true timeoutEnv 2).2 = 2 := by
  refine ⟨?_, ?_, by decide, by decide, by decide⟩
  · simpa [get_image] using fetchCount_go_le env r (r + 1) 0 0
  · simpa [get_image] using backoffShape_go env r r 0 0 (by omega)

/-- C10: inside the retry sequence, if the reconnection after a failed
transport attempt itself fails, `get_image` returns that connection-failure
result immediately: no backoff sleep, no further fetch attempt, so fewer
than `retries + 1` attempts occur. -/
theorem c10_failed_reconnect_aborts (env : FtpEnv) (r a rc fuel : Nat)
    (e msg : String) (hlt : a < r)
    (hout : env.outcome a = FetchOutcome.timeout e ∨
      env.outcome a = FetchOutcome.err e)
    (hrc : env.reconnect rc = (false, msg)) :
    get_image_go env r a rc (fuel + 1) =
      ((false, none, msg), [FtpEv.fetch, FtpEv.reconnect]) ∧
    (a = 0 → rc = 0 →
      get_image true env r = ((false, none, msg), [FtpEv.fetch, FtpEv.reconnect]) ∧
      fetchCount (get_image true env r).2 = 1 ∧
      hasSleep (get_image true env r).2 = false) := by
  have hgo : ∀ f : Nat, get_image_go env r a rc (f + 1) =
      ((false, none, msg), [FtpEv.fetch, FtpEv.reconnect]) := by
    intro f
    rcases hout with h | h <;> simp [get_image_go, h, hlt, hrc]
  refine ⟨hgo fuel, ?_⟩
  rintro rfl rfl
  have htop : get_image true env r = get_image_go env r 0 0 (r + 1) := by
    simp [get_image]
  rw [htop, hgo r]
  exact ⟨rfl, by simp [fetchCount, List.filter_cons], by simp [hasSleep]⟩

/-- Witness for C10: first attempt times out, reconnect fails; `get_image`
stops after a single attempt with the connection-failure message. -/
theorem c10_failed_reconnect_aborts_witness :
    get_image true deadLinkEnv 2 =
      ((false, none, "FTP connection error: refused"), [FtpEv.fetch, FtpEv.reconnect]) ∧
    fetchCount (get_image true deadLinkEnv 2).2 = 1 ∧
    hasSleep (get_image true deadLinkEnv 2).2 = false :=
  (c10_failed_reconnect_aborts deadLinkEnv 2 0 0 1 "timed out"
    "FTP connection error: refused" (by decide) (Or.inl rfl) rfl).2 rfl rfl

/-- Witness for C3: the `GVA005` exchange with response lines `1`, `45.2`. -/
theorem c3_status_dispatch_witness :
    (send_native_command (some ["1", "45.2"]) "GVA005").1 =
      (true, "Command GVA005: 1\n45.2") ∧
    ((splitOnNl (send_native_command (some ["1", "45.2"]) "GVA005").1.2.data)[1]? =
      some "45.2".data) :=
  ⟨(c3_status_dispatch ["1", "45.2"] "GVA005" (by decide) (by decide)).2.2.2.2.1,
   (c3_status_dispatch ["1", "45.2"] "GVA005" (by decide) (by decide)).2.2.2.2.2⟩

theorem containsFetch_trig_append (l : List TrigEv) (r : List StreamEv) :
    containsFetch (l.map StreamEv.trigEv ++ r) = containsFetch r := by
  induction l with
  | nil => rfl
  | cons a t ih =>
    simpa [containsFetch, List.any_cons] using ih

/-- C4: in a stream-loop iteration, image retrieval happens only when the
iteration is not paused and the trigger succeeded; trigger success is the
SE8 response containing `"1"`; and when the device answers `"0"` the
iteration publishes a failure whose message is `Trigger failed`, sleeps
briefly, and never attempts retrieval. -/
theorem c4_trigger_gates_retrieval (p : Bool) (env : IterEnv) :
    (containsFetch (stream_iteration p env) = true →
      p = false ∧ (trigger_image env.trig).1.1 = true) ∧
    (∀ s : String, env.trig.se8 = TrigOutcome.resp s → env.trig.tn = true →
      env.trig.ftpHealthy = true →
      ((trigger_image env.trig).1.1 = true ↔ s.data.contains '1' = true)) ∧
    stream_iteration false iterZeroEnv =
      [StreamEv.trigEv TrigEv.se8Write,
       StreamEv.publish (false, none, "Trigger failed"), StreamEv.sleepEv 100] ∧
    containsFetch (stream_iteration false iterZeroEnv) = false := by
  refine ⟨?_, ?_, by decide, by decide⟩
  · intro h
    cases p with
    | true => simp [stream_iteration, containsFetch] at h
    | false =>
      refine ⟨rfl, ?_⟩
      by_cases ht : (trigger_image env.trig).1.1 = false
      · exfalso
        simp only [stream_iteration, Bool.false_eq_true, if_false, ht, if_true] at h
        rw [containsFetch_trig_append] at h
        simp [containsFetch] at h
      · simpa using ht
  · intro s hs htn hh
    simp only [trigger_image, htn, hh]
    simp only [Bool.true_eq_false, false_and, if_false, hs]
    by_cases hc : '1' ∈ s.data <;> simp [hc]

/-- Witness for C4: with a healthy environment whose SE8 response is `"1"`,
the iteration does retrieve, and the theorem yields that the trigger
succeeded. -/
theorem c4_trigger_gates_retrieval_witness :
    false = false ∧ (trigger_image iterOneEnv.trig).1.1 = true :=
  (c4_trigger_gates_retrieval false iterOneEnv).1 (by decide)

/-- C9: before sending SE8, `trigger_image` health-checks the Transfer
Channel; when the health check fails and the subsequent FTP reconnect also
fails, it returns a failure whose message begins `FTP reconnect failed`
with no write on the command channel. -/
theorem c9_ftp_guard_no_command_traffic (env : TrigEnv)
    (h1 : env.tn = true) (h2 : env.ftpHealthy = false)
    (h3 : env.reconnectOk = false) :
    trigger_image env =
      ((false, none, "FTP reconnect failed: " ++ env.reconnectMsg),
        [TrigEv.ftpReconnect]) ∧
    (∀ e ∈ (trigger_image env).2, e ≠ TrigEv.se8Write) ∧
    ∃ rest, (trigger_image env).1.2.2 = "FTP reconnect failed" ++ rest := by
  have ht : trigger_image env =
      ((false, none, "FTP reconnect failed: " ++ env.reconnectMsg),
        [TrigEv.ftpReconnect]) := by
    simp [trigger_image, h1, h2, h3]
  refine ⟨ht, ?_, ?_⟩
  · rw [ht]
    intro e he
    simp only [List.mem_singleton] at he
    subst he
    decide
  · refine ⟨": " ++ env.reconnectMsg, ?_⟩
    rw [ht]
    show "FTP reconnect failed: " ++ env.reconnectMsg =
      "FTP reconnect failed" ++ (": " ++ env.reconnectMsg)
    rw [← String.append_assoc]
    rw [show ("FTP reconnect failed: " : String) = "FTP reconnect failed" ++ ": " from by decide]

/-- Witness for C9: a dead transfer channel with a failing reconnect. -/
theorem c9_ftp_guard_no_command_traffic_witness :
    trigger_image deadTrigEnv =
      ((false, none, "FTP reconnect failed: FTP connection error: refused"),
        [TrigEv.ftpReconnect]) :=
  (c9_ftp_guard_no_command_traffic deadTrigEnv rfl rfl rfl).1

/-- C5: for every valid `HH:MM` stop time and current time, the stop
deadline is strictly later than (so in particular `≥`) now; it is today's
stop time-of-day, rolled to the next day exactly when that time-of-day is
at or before the current time-of-day. -/
theorem c5_stop_deadline (nowDay nowSec h m : Nat)
    (hsec : nowSec < 86400) (hh : h < 24) (hm : m < 60) :
    nowDay * 86400 + nowSec ≤
      get_next_stop_datetime nowDay nowSec (stopSecOfHM h m) ∧
    (stopSecOfHM h m ≤ nowSec →
      get_next_stop_datetime nowDay nowSec (stopSecOfHM h m) =
        nowDay * 86400 + stopSecOfHM h m + 86400) ∧
    (nowSec < stopSecOfHM h m →
      get_next_stop_datetime nowDay nowSec (stopSecOfHM h m) =
        nowDay * 86400 + stopSecOfHM h m) := by
  simp only [get_next_stop_datetime, stopSecOfHM]
  refine ⟨?_, ?_, ?_⟩ <;> (intros; split_ifs with hif <;> omega)

/-- Witness for C5: at 13:53:20 on day 10 with stop time 13:30, the
deadline rolls to day 11. -/
theorem c5_stop_deadline_witness :
    10 * 86400 + 50000 ≤
      get_next_stop_datetime 10 50000 (stopSecOfHM 13 30) ∧
    (stopSecOfHM 13 30 ≤ 50000 →
      get_next_stop_datetime 10 50000 (stopSecOfHM 13 30) =
        10 * 86400 + stopSecOfHM 13 30 + 86400) ∧
    (50000 < stopSecOfHM 13 30 →
      get_next_stop_datetime 10 50000 (stopSecOfHM 13 30) =
        10 * 86400 + stopSecOfHM 13 30) :=
  c5_stop_deadline 10 50000 13 30 (by decide) (by decide) (by decide)

/-- Counterexample for C6: after `start`, `pause`, `resume` the stream is
running and not paused, yet the keep-alive supervisor flag is still off —
`resume_streaming` never restarts the supervisor, refuting "the supervisor
is active exactly while streaming is active and not paused" and "after
resume_streaming from the Paused state the supervisor is active again". -/
theorem c6_supervisor_counterexample :
    (runOps connectedIdle [CamOp.start, CamOp.pause, CamOp.resume]).streaming
        = true ∧
    (runOps connectedIdle [CamOp.start, CamOp.pause, CamOp.resume]).paused
        = false ∧
    (runOps connectedIdle [CamOp.start, CamOp.pause, CamOp.resume]).keepAlive
        = false := by
  decide

theorem applyOp_keepAlive_inv (s : CamState) (op : CamOp)
    (hinv : s.keepAlive = true → s.streaming = true ∧ s.paused = false) :
    (applyOp s op).keepAlive = true →
      (applyOp s op).streaming = true ∧ (applyOp s op).paused = false := by
  cases op with
  | start =>
    simp only [applyOp, start_live_stream]
    split_ifs with h1 h2
    · exact hinv
    · exact hinv
    · intro _; exact ⟨rfl, rfl⟩
  | pause =>
    simp only [applyOp, pause_streaming]
    split_ifs with h1
    · exact hinv
    · intro hk; simp at hk
  | resume =>
    simp only [applyOp, resume_streaming]
    split_ifs with h1
    · simp only [start_live_stream]
      split_ifs with h2 h3
      · exact hinv
      · exact hinv
      · intro _; exact ⟨rfl, rfl⟩
    · intro hk
      have := hinv hk
      exact ⟨this.1, rfl⟩
  | halt =>
    simp only [applyOp, stop]
    split_ifs with h1
    · intro hk; simp at hk
    · intro hk; simp at hk

theorem runOps_keepAlive_inv (ops : List CamOp) : ∀ s : CamState,
    (s.keepAlive = true → s.streaming = true ∧ s.paused = false) →
    ((runOps s ops).keepAlive = true →
      (runOps s ops).streaming = true ∧ (runOps s ops).paused = false) := by
  induction ops with
  | nil => intro s hinv; exact hinv
  | cons op rest ih =>
    intro s hinv
    exact ih (applyOp s op) (applyOp_keepAlive_inv s op hinv)

/-- C6 (amended): the keep-alive supervisor flag is only ever on while the
stream is running and unpaused (an invariant of every operation sequence),
and pausing switches it off; but `resume_streaming` of a still-running
stream leaves it unchanged — i.e. off after a pause — rather than
restarting it.  The supervisor becomes active again only when streaming is
started afresh. -/
theorem c6_supervisor_amended (s : CamState) (ops : List CamOp)
    (hinv : s.keepAlive = true → s.streaming = true ∧ s.paused = false) :
    ((runOps s ops).keepAlive = true →
      (runOps s ops).streaming = true ∧ (runOps s ops).paused = false) ∧
    (s.streaming = true → (pause_streaming s).2.keepAlive = false) ∧
    (s.streaming = true →
      (resume_streaming s).2.keepAlive = s.keepAlive) := by
  refine ⟨runOps_keepAlive_inv ops s hinv, ?_, ?_⟩
  · intro hs
    simp [pause_streaming, hs]
  · intro hs
    simp [resume_streaming, hs]

/-- Witness for C6 (amended), on the connected idle state and the
`start; pause; resume` sequence. -/
theorem c6_supervisor_amended_witness :
    ((runOps connectedIdle [CamOp.start, CamOp.pause, CamOp.resume]).keepAlive = true →
      (runOps connectedIdle [CamOp.start, CamOp.pause, CamOp.resume]).streaming = true ∧
      (runOps connectedIdle [CamOp.start, CamOp.pause, CamOp.resume]).paused = false) ∧
    (connectedIdle.streaming = true →
      (pause_streaming connectedIdle).2.keepAlive = false) ∧
    (connectedIdle.streaming = true →
      (resume_streaming connectedIdle).2.keepAlive = connectedIdle.keepAlive) :=
  c6_supervisor_amended connectedIdle [CamOp.start, CamOp.pause, CamOp.resume]
    (by decide)

/-- Counterexample for C7: calling `pause_streaming` while the stream is
already paused (and still running) returns success (`True, "Streaming
paused"`), not a rejected call, refuting "pause while already paused is a
no-op error (a rejected call)". -/
theorem c7_pause_counterexample :
    pausedState.streaming = true ∧ pausedState.paused = true ∧
    (pause_streaming pausedState).1.1 = true := by
  decide

/-- C7 (amended): while paused, a stream-loop iteration only sleeps — it
publishes nothing and performs no trigger or retrieval; and pausing an
already-paused running stream is an idempotent no-op that returns success
and leaves the state unchanged (it does not raise; only pausing a
non-streaming controller is rejected). -/
theorem c7_paused_loop_amended (env : IterEnv) (s : CamState)
    (hs : s.streaming = true) (hp : s.paused = true)
    (hk : s.keepAlive = false) :
    stream_iteration true env = [StreamEv.sleepEv 100] ∧
    publishedOf (stream_iteration true env) = [] ∧
    containsFetch (stream_iteration true env) = false ∧
    pause_streaming s = ((true, "Streaming paused"), s) ∧
    (pause_streaming { s with streaming := false }).1.1 = false := by
  refine ⟨rfl, rfl, rfl, ?_, rfl⟩
  rcases s with ⟨st, pa, ka, tn, ftp, th, ss, stopT⟩
  simp only at hs hp hk
  subst hs; subst hp; subst hk
  rfl

/-- Witness for C7 (amended), on the concrete paused state reached by
`start; pause`. -/
theorem c7_paused_loop_amended_witness :
    stream_iteration true iterOneEnv = [StreamEv.sleepEv 100] ∧
    publishedOf (stream_iteration true iterOneEnv) = [] ∧
    containsFetch (stream_iteration true iterOneEnv) = false ∧
    pause_streaming pausedState = ((true, "Streaming paused"), pausedState) ∧
    (pause_streaming { pausedState with streaming := false }).1.1 = false :=
  c7_paused_loop_amended iterOneEnv pausedState (by decide) (by decide) (by decide)

/-- C8: `stop` is idempotent and callable from any state: it always returns
success with the same message, never raises (it is a total function), and
leaves both session handles absent, the thread joined and the flags
cleared; a second `stop` returns the same result and the same state. -/
theorem c8_stop_idempotent (s : CamState) :
    stop ((stop s).2) = stop s ∧
    (stop s).1 = (true, "Camera stopped and disconnected") ∧
    (stop s).2.tn = false ∧ (stop s).2.ftp = false ∧
    (stop s).2.streamThread = false ∧ (stop s).2.streaming = false ∧
    (stop s).2.paused = false ∧ (stop s).2.keepAlive = false := by
  rcases s with ⟨st, pa, ka, tn, ftp, th, ss, stopT⟩
  cases ftp <;> simp [stop]

end CameraSpec
